import Mathlib

/-!
Verification development for the ddex-suite repository
(`packages/ddex-builder`, with the parser and core model packages as
context).  The definitions below are a shallow embedding of the Rust
sources; each definition's comment names the file and item it embeds.

Ambient nondeterminism (wall clock, random UUIDs) is made explicit by an
`Env` record holding the values those sources would observe; every call
to `Utc::now()` or `Uuid::new_v4()` in the Rust code reads the
corresponding `Env` field, in execution order for UUID draws.

A Rust `todo!()` (a guaranteed panic) and any panic reached by a code
path are embedded as a distinguished `panicked` outcome, so that
"returns Ok or Err and never panics" is a statable property.
-/

set_option maxRecDepth 10000

namespace Ddex

/-! ## error.rs — `BuildError` (packages/ddex-builder/src/error.rs)

The enum in error.rs lists the first nine variants.  `builder.rs`
additionally constructs `BuildError::ValidationFailed { errors }`
(builder.rs line 233); the snapshot's error.rs predates that variant, so
it is included here as the tenth constructor. -/

inductive BuildError where
  | MissingRequired (field : String)
  | InvalidFormat (field : String) (message : String)
  | UnknownField (field : String)
  | BadReference (reference : String)
  | CycleDetected (reference : String)
  | NamespaceLockViolation (message : String)
  | DeterminismFailure (message : String)
  | IoError (message : String)
  | Serialization (message : String)
  | ValidationFailed (errors : List String)
  deriving DecidableEq

/-- builder.rs `BuildWarning` (code, message, optional location). -/
structure BuildWarning where
  code : String
  message : String
  location : Option String
  deriving DecidableEq

/-! ## determinism.rs — configuration enums and `DeterminismConfig` -/

inductive CanonMode where
  | DbC14n | Pretty | Compact
  deriving DecidableEq

inductive SortStrategy where
  | Canonical | InputOrder | Custom
  deriving DecidableEq

inductive NamespaceStrategy where
  | Locked | Inherit
  deriving DecidableEq

inductive OutputMode where
  | DbC14n | Pretty | Compact
  deriving DecidableEq

inductive LineEnding where
  | LF | CRLF
  deriving DecidableEq

inductive IndentChar where
  | Space | Tab
  deriving DecidableEq

/-- determinism.rs `UnicodeNormalization` (named with a suffix to avoid
clashing with the Mathlib namespace of the same name). -/
inductive UnicodeNormalizationForm where
  | NFC | NFD | NFKC | NFKD
  deriving DecidableEq

inductive XmlCharacterPolicy where
  | Escape | CData | Reject
  deriving DecidableEq

inductive QuoteStyle where
  | Double | Single
  deriving DecidableEq

inductive TimeZonePolicy where
  | UTC | Preserve | LocalTime
  deriving DecidableEq

inductive DateTimeFormat where
  | ISO8601Z | ISO8601 | CustomFormat
  deriving DecidableEq

/-- determinism.rs `DeterminismConfig`.  Rust `IndexMap` fields are
embedded as insertion-ordered association lists. -/
structure DeterminismConfig where
  canon_mode : CanonMode
  sort_strategy : SortStrategy
  custom_sort_order : Option (List (String × List String))
  namespace_strategy : NamespaceStrategy
  locked_prefixes : List (String × String)
  output_mode : OutputMode
  line_ending : LineEnding
  indent_char : IndentChar
  indent_width : Nat
  unicode_normalization : UnicodeNormalizationForm
  xml_character_policy : XmlCharacterPolicy
  quote_style : QuoteStyle
  time_zone_policy : TimeZonePolicy
  date_time_format : DateTimeFormat
  emit_reproducibility_banner : Bool
  verify_determinism : Option Nat
  deriving DecidableEq

/-- determinism.rs `default_namespace_prefixes`. -/
def default_namespace_prefixes : List (String × String) :=
  [("http://ddex.net/xml/ern/43", "ern"),
   ("http://ddex.net/xml/ern/42", "ern"),
   ("http://ddex.net/xml/ern/382", "ern"),
   ("http://ddex.net/xml/avs", "avs"),
   ("http://www.w3.org/2001/XMLSchema-instance", "xsi")]

/-- determinism.rs `impl Default for DeterminismConfig`. -/
def DeterminismConfig.default : DeterminismConfig :=
  { canon_mode := .DbC14n
    sort_strategy := .Canonical
    custom_sort_order := none
    namespace_strategy := .Locked
    locked_prefixes := default_namespace_prefixes
    output_mode := .DbC14n
    line_ending := .LF
    indent_char := .Space
    indent_width := 2
    unicode_normalization := .NFC
    xml_character_policy := .Escape
    quote_style := .Double
    time_zone_policy := .UTC
    date_time_format := .ISO8601Z
    emit_reproducibility_banner := false
    verify_determinism := none }

/-! ## ast.rs — the AST (packages/ddex-builder/src/ast.rs)

`Element.attributes` is an `IndexMap<String, String>`: an
insertion-ordered map, embedded as an association list where `insert`
overwrites in place for an existing key and appends for a new key.

ast.rs's `Node::Comment` carries a structured `Comment` from the
`ddex_core::models` module (absent from the snapshot); only its content
string is observable in the writer, so it is embedded as that string.
ast.rs also has a `Node::SimpleComment` legacy variant which
xml_writer.rs's match does not handle; it is omitted here (none of the
verified claims constructs it). -/

mutual

inductive Element where
  | mk (name : String) (ns : Option String)
       (attributes : List (String × String)) (children : List Node)

inductive Node where
  | element (e : Element)
  | text (s : String)
  | comment (c : String)

end

def Element.name : Element → String
  | .mk n _ _ _ => n

def Element.ns : Element → Option String
  | .mk _ n _ _ => n

def Element.attributes : Element → List (String × String)
  | .mk _ _ a _ => a

def Element.children : Element → List Node
  | .mk _ _ _ c => c

/-- Rust `IndexMap::insert`: overwrite in place if the key is present,
append at the end otherwise. -/
def indexMapInsert (m : List (String × String)) (k v : String) :
    List (String × String) :=
  match m with
  | [] => [(k, v)]
  | (k', v') :: rest =>
    if k' = k then (k, v) :: rest
    else (k', v') :: indexMapInsert rest k v

/-- ast.rs `Element::new`. -/
def Element.new (name : String) : Element :=
  .mk name none [] []

/-- ast.rs `Element::with_attr` (inserts into the `IndexMap`). -/
def Element.with_attr (e : Element) (k v : String) : Element :=
  match e with
  | .mk n ns attrs ch => .mk n ns (indexMapInsert attrs k v) ch

/-- ast.rs `Element::with_text`. -/
def Element.with_text (e : Element) (t : String) : Element :=
  match e with
  | .mk n ns attrs ch => .mk n ns attrs (ch ++ [Node.text t])

/-- ast.rs `Element::add_child` (returns the updated element). -/
def Element.add_child (e : Element) (c : Element) : Element :=
  match e with
  | .mk n ns attrs ch => .mk n ns attrs (ch ++ [Node.element c])

/-- ast.rs `AST` root structure. -/
structure AST where
  root : Element
  namespaces : List (String × String)
  schema_location : Option String

/-! ## generator/xml_writer.rs — `XmlWriter` -/

/-- Repeat a string `n` times (Rust `str::repeat`). -/
def repeatStr (s : String) (n : Nat) : String :=
  String.join (List.replicate n s)

/-- xml_writer.rs `get_indent`. -/
def XmlWriter.get_indent (cfg : DeterminismConfig) (depth : Nat) : String :=
  match cfg.indent_char with
  | .Space => repeatStr " " (depth * cfg.indent_width)
  | .Tab => repeatStr "\t" depth

/-- xml_writer.rs `escape_text`: the chained
`replace('&',"&amp;").replace('<',"&lt;").replace('>',"&gt;")`, which
(since the replacement strings contain no later needles beyond the
ampersands produced in the first pass) equals this single pass. -/
def XmlWriter.escape_text (t : String) : String :=
  String.join (t.toList.map fun c =>
    if c = '&' then "&amp;"
    else if c = '<' then "&lt;"
    else if c = '>' then "&gt;"
    else String.singleton c)

/-- xml_writer.rs `escape_attribute`: chained replacement of
`& < > " '`, equal to this single pass for the same reason. -/
def XmlWriter.escape_attribute (t : String) : String :=
  String.join (t.toList.map fun c =>
    if c = '&' then "&amp;"
    else if c = '<' then "&lt;"
    else if c = '>' then "&gt;"
    else if c = '"' then "&quot;"
    else if c = '\'' then "&apos;"
    else String.singleton c)

/-- The attribute loop of xml_writer.rs `write_element` (lines 68-71):
one ` key="escaped-value"` segment per stored attribute, in the stored
(insertion) order of the `IndexMap`. -/
def XmlWriter.renderAttrs (attrs : List (String × String)) : String :=
  String.join (attrs.map fun kv =>
    " " ++ kv.1 ++ "=\"" ++ XmlWriter.escape_attribute kv.2 ++ "\"")

/-- xml_writer.rs `get_element_name`: qualified name used in close tags. -/
def XmlWriter.get_element_name (e : Element)
    (namespaces : List (String × String)) : String :=
  match e.ns with
  | some ns =>
    match namespaces.find? (fun kv => kv.2 = ns) with
    | some kv => kv.1 ++ ":" ++ e.name
    | none =>
      if namespaces.isEmpty then e.name
      else match namespaces.head? with
        | some kv => kv.1 ++ ":" ++ e.name
        | none => e.name
  | none =>
    if namespaces.isEmpty then e.name
    else match namespaces.head? with
      | some kv => kv.1 ++ ":" ++ e.name
      | none => e.name

/-- The namespace-qualification written before the element name in the
start tag (xml_writer.rs lines 43-53). -/
def XmlWriter.startPfx (e : Element) (namespaces : List (String × String))
    (depth : Nat) : String :=
  match e.ns with
  | some ns =>
    match namespaces.find? (fun kv => kv.2 = ns) with
    | some kv => kv.1 ++ ":"
    | none => ""
  | none =>
    if depth = 0 ∧ ¬ namespaces.isEmpty then
      match namespaces.head? with
      | some kv => kv.1 ++ ":"
      | none => ""
    else ""

/-- xmlns declarations emitted on the root element
(xml_writer.rs lines 57-66). -/
def XmlWriter.rootDecls (namespaces : List (String × String))
    (schema_location : Option String) (depth : Nat) : String :=
  if depth = 0 then
    String.join (namespaces.map fun kv =>
      " xmlns:" ++ kv.1 ++ "=\"" ++ kv.2 ++ "\"") ++
    (match schema_location with
     | some loc => " xsi:schemaLocation=\"" ++ loc ++ "\""
     | none => "")
  else ""

mutual

/-- xml_writer.rs `write_element`.  The writer uses `writeln!`, i.e. a
bare `\n`, for every line ending regardless of `cfg.line_ending`. -/
def XmlWriter.write_element (cfg : DeterminismConfig)
    (namespaces : List (String × String)) (schema_location : Option String)
    (depth : Nat) : Element → String
  | .mk name ns attrs ch =>
    let indent := XmlWriter.get_indent cfg depth
    let start := indent ++ "<" ++
      XmlWriter.startPfx (.mk name ns attrs ch) namespaces depth ++
      name ++ XmlWriter.rootDecls namespaces schema_location depth ++
      XmlWriter.renderAttrs attrs
    match ch with
    | [] => start ++ "/>\n"
    | [Node.text t] =>
      start ++ ">" ++ XmlWriter.escape_text t ++ "</" ++
        XmlWriter.get_element_name (.mk name ns attrs ch) namespaces ++ ">\n"
    | _ =>
      start ++ ">\n" ++
        XmlWriter.writeChildren cfg namespaces depth ch ++
        indent ++ "</" ++
        XmlWriter.get_element_name (.mk name ns attrs ch) namespaces ++ ">\n"

/-- The child loop of `write_element` (Element children recurse with
`schema_location = None` and `depth + 1`). -/
def XmlWriter.writeChildren (cfg : DeterminismConfig)
    (namespaces : List (String × String)) (depth : Nat) :
    List Node → String
  | [] => ""
  | Node.element child :: rest =>
    XmlWriter.write_element cfg namespaces none (depth + 1) child ++
      XmlWriter.writeChildren cfg namespaces depth rest
  | Node.text t :: rest =>
    XmlWriter.get_indent cfg (depth + 1) ++ XmlWriter.escape_text t ++ "\n" ++
      XmlWriter.writeChildren cfg namespaces depth rest
  | Node.comment c :: rest =>
    XmlWriter.get_indent cfg (depth + 1) ++ "<!-- " ++ c ++ " -->\n" ++
      XmlWriter.writeChildren cfg namespaces depth rest

end

/-- canonical/mod.rs `rules::XML_DECLARATION`, also the literal written
first by xml_writer.rs `write` and canonical/mod.rs `canonicalize`. -/
def XML_DECLARATION : String := "<?xml version=\"1.0\" encoding=\"UTF-8\"?>"

/-- xml_writer.rs `write`: the declaration line then the root element.
In Rust this returns `Result<String, BuildError>`; the buffer writes are
infallible and the bytes are valid UTF-8 by construction, so the `Ok`
payload is embedded directly. -/
def XmlWriter.write (cfg : DeterminismConfig) (ast : AST) : String :=
  XML_DECLARATION ++ "\n" ++
    XmlWriter.write_element cfg ast.namespaces ast.schema_location 0 ast.root

/-! ## canonical/mod.rs — `DB_C14N` -/

/-- Outcome of a fallible operation whose Rust body may also panic. -/
inductive CanonOutcome where
  | ok (s : String)
  | err (e : BuildError)
  | panicked
  deriving DecidableEq

/-- canonical/mod.rs `DB_C14N::parse_xml` is `todo!("Parse XML")`:
an unconditional panic on every input. -/
def DB_C14N.parse_xml (_cfg : DeterminismConfig) (_xml : String) :
    CanonOutcome :=
  .panicked

/-- canonical/mod.rs `DB_C14N::canonicalize`: pushes the declaration and
a line feed, then calls `parse_xml` (which panics unconditionally); the
`canonicalize_document`/`serialize_canonical` stages (also `todo!`) are
never reached. -/
def DB_C14N.canonicalize (cfg : DeterminismConfig) (xml : String) :
    CanonOutcome :=
  match DB_C14N.parse_xml cfg xml with
  | .ok _ => .panicked    -- canonicalize_document is todo!() as well
  | .err e => .err e
  | .panicked => .panicked

/-! ## builder.rs — request structures -/

/-- builder.rs `LocalizedStringRequest`. -/
structure LocalizedStringRequest where
  text : String
  language_code : Option String
  deriving DecidableEq

/-- builder.rs `PartyRequest`. -/
structure PartyRequest where
  party_name : List LocalizedStringRequest
  party_id : Option String
  party_reference : Option String
  deriving DecidableEq

/-- builder.rs `MessageHeaderRequest`. -/
structure MessageHeaderRequest where
  message_id : Option String
  message_sender : PartyRequest
  message_recipient : PartyRequest
  message_control_type : Option String
  message_created_date_time : Option String
  deriving DecidableEq

/-- builder.rs `TrackRequest` (the authoritative shape: `isrc` and
`duration` are mandatory strings, `duration` in ISO-8601 form). -/
structure TrackRequest where
  track_id : String
  resource_reference : Option String
  isrc : String
  title : String
  duration : String
  artist : String
  deriving DecidableEq

/-- builder.rs `ReleaseRequest`. -/
structure ReleaseRequest where
  release_id : String
  release_reference : Option String
  title : List LocalizedStringRequest
  artist : String
  label : Option String
  release_date : Option String
  upc : Option String
  tracks : List TrackRequest
  resource_references : Option (List String)
  deriving DecidableEq

/-- builder.rs `DealTerms`. -/
structure DealTerms where
  commercial_model_type : String
  territory_code : List String
  start_date : Option String
  deriving DecidableEq

/-- builder.rs `DealRequest`. -/
structure DealRequest where
  deal_reference : Option String
  deal_terms : DealTerms
  release_references : List String
  deriving DecidableEq

/-- builder.rs `BuildRequest`. -/
structure BuildRequest where
  header : MessageHeaderRequest
  version : String
  profile : Option String
  releases : List ReleaseRequest
  deals : List DealRequest
  extensions : Option (List (String × String))
  deriving DecidableEq

/-- builder.rs `IdStrategy`. -/
inductive IdStrategy where
  | UUID | UUIDv7 | Sequential | StableHash
  deriving DecidableEq

/-- builder.rs `BuildStatistics`. -/
structure BuildStatistics where
  releases : Nat
  tracks : Nat
  deals : Nat
  generation_time_ms : Nat
  xml_size_bytes : Nat
  deriving DecidableEq

/-- builder.rs `BuildResult`. -/
structure BuildResult where
  xml : String
  warnings : List BuildWarning
  errors : List BuildError
  statistics : BuildStatistics
  canonical_hash : Option String
  reproducibility_banner : Option String
  deriving DecidableEq

/-! ## The ambient environment

Everything the builder observes from outside its inputs: the wall clock
(`chrono::Utc::now()`, under three formattings used in the sources) and
the random-UUID source (`uuid::Uuid::new_v4()`, as a stream indexed by
draw order; the hyphenated and `simple` renderings of a draw are taken
as given strings).  `elapsed_ms` stands for the `Instant` duration
measurement that lands in `BuildStatistics`. -/
structure Env where
  /-- The `Utc::now().format("%Y-%m-%dT%H:%M:%S%.3fZ")` observation (generator/mod.rs line 91). -/
  now_datetime : String
  /-- The `Utc::now().format("%Y%m%d")` observation (builder.rs line 405). -/
  now_ymd : String
  /-- The `Utc::now().timestamp()` observation rendered (builder.rs line 357). -/
  now_timestamp : String
  /-- successive `Uuid::new_v4()` draws, in call order. -/
  uuid : Nat → String
  /-- elapsed build time in milliseconds. -/
  elapsed_ms : Nat

/-! ## generator/mod.rs — `ASTGenerator`

generator/mod.rs was written against a conflicting variant of the
request shapes (optional `isrc`, numeric `duration`, `DealRequest` with
direct `territories`/`start_date`/`end_date` fields); the spec notes
these conflicting shapes and adopts builder.rs's richer form.  The
embedding uses builder.rs's structures and maps the generator's field
uses through them: the `if let Some(isrc)` branch is always taken
(mandatory `isrc`); the numeric duration is the crate's own numeric
reading `parse_duration_to_seconds` of the ISO-8601 string; deal
`territories`/`start_date` come from `deal_terms` and `end_date` (absent
from `DealTerms`) is `None`. -/

/-- builder.rs `parse_duration_to_seconds` inner loop state step. -/
def durationStep (state : Nat × String) (c : Char) : Nat × String :=
  let (seconds, current) := state
  if '0' ≤ c ∧ c ≤ '9' then (seconds, current.push c)
  else if c = 'H' then
    (match current.toNat? with
     | some h => seconds + h * 3600
     | none => seconds, "")
  else if c = 'M' then
    (match current.toNat? with
     | some m => seconds + m * 60
     | none => seconds, "")
  else if c = 'S' then
    (match current.toNat? with
     | some s => seconds + s
     | none => seconds, "")
  else (seconds, current)

/-- builder.rs `parse_duration_to_seconds`: `None` unless the string
starts with `PT`, else the accumulated seconds. -/
def parse_duration_to_seconds (duration : String) : Option Nat :=
  if duration.startsWith "PT" then
    some ((duration.drop 2).toList.foldl durationStep (0, "")).1
  else none

/-- generator/mod.rs `create_root_element`. -/
def ASTGenerator.create_root_element (version : String) :
    Except BuildError Element :=
  match version with
  | "4.3" | "4.2" | "3.8.2" =>
    .ok (((Element.new "NewReleaseMessage").with_attr
        "MessageSchemaVersionId" ("ern/" ++ version)).with_attr
        "LanguageAndScriptCode" "en")
  | _ => .error (.InvalidFormat "version" ("Unsupported version: " ++ version))

/-- generator/mod.rs `generate_party`. -/
def ASTGenerator.generate_party (element_name : String)
    (party : PartyRequest) : Element :=
  let withNames := party.party_name.foldl (fun acc nm =>
    let pn := (Element.new "PartyName").add_child
      ((Element.new "FullName").with_text nm.text)
    let pn := match nm.language_code with
      | some lang => pn.with_attr "LanguageAndScriptCode" lang
      | none => pn
    acc.add_child pn) (Element.new element_name)
  match party.party_id with
  | some pid => withNames.add_child ((Element.new "PartyId").with_text pid)
  | none => withNames

/-- generator/mod.rs `generate_message_header`.  `MessageId` falls back
to a fresh UUID when absent; `MessageCreatedDateTime` is always the
current wall clock (`Utc::now()`), never the request's
`message_created_date_time`. -/
def ASTGenerator.generate_message_header (env : Env) (uuidCtr : Nat)
    (header : MessageHeaderRequest) : Element :=
  let message_id := header.message_id.getD ("MSG_" ++ env.uuid uuidCtr)
  let e := (Element.new "MessageHeader").add_child
    ((Element.new "MessageId").with_text message_id)
  let e := e.add_child
    ((Element.new "MessageCreatedDateTime").with_text env.now_datetime)
  let e := e.add_child
    (ASTGenerator.generate_party "MessageSender" header.message_sender)
  let e := e.add_child
    (ASTGenerator.generate_party "MessageRecipient" header.message_recipient)
  match header.message_control_type with
  | some ct => e.add_child ((Element.new "MessageControlType").with_text ct)
  | none => e

/-- One `SoundRecording` of generator/mod.rs `generate_resource_list`;
`n` is the value drawn from the generator's `next_id` counter. -/
def ASTGenerator.soundRecording (n : Nat) (track : TrackRequest) : Element :=
  let e := (Element.new "SoundRecording").add_child
    ((Element.new "ResourceReference").with_text ("A" ++ toString n))
  let e := e.add_child
    ((Element.new "ResourceId").add_child
      ((Element.new "ISRC").with_text track.isrc))
  let e := e.add_child
    ((Element.new "ReferenceTitle").add_child
      ((Element.new "TitleText").with_text track.title))
  let secs := (parse_duration_to_seconds track.duration).getD 0
  e.add_child ((Element.new "Duration").with_text
    ("PT" ++ toString (secs / 60) ++ "M" ++ toString (secs % 60) ++ "S"))

/-- generator/mod.rs `generate_resource_list`: one `SoundRecording` per
track of every release, threading the `id_counter` (`next_id` increments
then returns, so draws are 1, 2, ...). -/
def ASTGenerator.generate_resource_list (ctr : Nat)
    (releases : List ReleaseRequest) : Element × Nat :=
  let step := fun (acc : Element × Nat) (track : TrackRequest) =>
    let (e, c) := acc
    (e.add_child (ASTGenerator.soundRecording (c + 1) track), c + 1)
  releases.foldl (fun acc rel => rel.tracks.foldl step acc)
    (Element.new "ResourceList", ctr)

/-- One `Release` element of generator/mod.rs `generate_release_list`. -/
def ASTGenerator.releaseElement (n : Nat) (release : ReleaseRequest) :
    Element :=
  let e := (Element.new "Release").add_child
    ((Element.new "ReleaseReference").with_text ("R" ++ toString n))
  let e := e.add_child
    ((Element.new "ReleaseId").add_child
      ((Element.new "ICPN").with_text release.release_id))
  let e := release.title.foldl (fun acc t =>
    let rt := (Element.new "ReferenceTitle").add_child
      ((Element.new "TitleText").with_text t.text)
    let rt := match t.language_code with
      | some lang => rt.with_attr "LanguageAndScriptCode" lang
      | none => rt
    acc.add_child rt) e
  let rrl := (List.range release.tracks.length).foldl (fun acc track_idx =>
    acc.add_child (((Element.new "ReleaseResourceReference").add_child
        ((Element.new "SequenceNumber").with_text (toString (track_idx + 1)))).add_child
        ((Element.new "ReleaseResourceReference").with_text
          ("A" ++ toString (track_idx + 1)))))
    (Element.new "ReleaseResourceReferenceList")
  let e := e.add_child rrl
  e.add_child ((Element.new "DisplayArtist").add_child
    ((Element.new "PartyName").add_child
      ((Element.new "FullName").with_text release.artist)))

/-- generator/mod.rs `generate_release_list`, threading `next_id`. -/
def ASTGenerator.generate_release_list (ctr : Nat)
    (releases : List ReleaseRequest) : Element × Nat :=
  releases.foldl (fun (acc : Element × Nat) rel =>
    let (e, c) := acc
    (e.add_child (ASTGenerator.releaseElement (c + 1) rel), c + 1))
    (Element.new "ReleaseList", ctr)

/-- generator/mod.rs `generate_deal_list` (territories and start date
read through `deal_terms`; there is no end-date field). -/
def ASTGenerator.generate_deal_list (deals : List DealRequest) : Element :=
  deals.foldl (fun acc deal =>
    let terms := deal.deal_terms.territory_code.foldl (fun a t =>
      a.add_child ((Element.new "TerritoryCode").with_text t))
      (Element.new "DealTerms")
    let terms := match deal.deal_terms.start_date with
      | some start =>
        terms.add_child ((Element.new "ValidityPeriod").add_child
          ((Element.new "StartDate").with_text start))
      | none => terms
    acc.add_child (((Element.new "ReleaseDeal").add_child
        ((Element.new "DealReleaseReference").with_text "R1")).add_child
        ((Element.new "Deal").add_child terms)))
    (Element.new "DealList")

/-- generator/mod.rs `get_namespaces`. -/
def ASTGenerator.get_namespaces (version : String) :
    List (String × String) :=
  match version with
  | "4.3" => [("ern", "http://ddex.net/xml/ern/43"),
              ("xsi", "http://www.w3.org/2001/XMLSchema-instance")]
  | "4.2" => [("ern", "http://ddex.net/xml/ern/42"),
              ("xsi", "http://www.w3.org/2001/XMLSchema-instance")]
  | "3.8.2" => [("ern", "http://ddex.net/xml/ern/382"),
                ("xsi", "http://www.w3.org/2001/XMLSchema-instance")]
  | _ => []

/-- generator/mod.rs `get_schema_location`. -/
def ASTGenerator.get_schema_location (version : String) : Option String :=
  match version with
  | "4.3" => some "http://ddex.net/xml/ern/43 http://ddex.net/xml/ern/43/release-notification.xsd"
  | "4.2" => some "http://ddex.net/xml/ern/42 http://ddex.net/xml/ern/42/release-notification.xsd"
  | "3.8.2" => some "http://ddex.net/xml/ern/382 http://ddex.net/xml/ern/382/release-notification.xsd"
  | _ => none

/-- generator/mod.rs `ASTGenerator::generate`.  `uuidCtr` is the index
of the next unconsumed `Uuid::new_v4()` draw when the header has no
message id. -/
def ASTGenerator.generate (env : Env) (uuidCtr : Nat)
    (request : BuildRequest) : Except BuildError AST :=
  match ASTGenerator.create_root_element request.version with
  | .error e => .error e
  | .ok root =>
    let root := root.add_child
      (ASTGenerator.generate_message_header env uuidCtr request.header)
    let root := root.add_child
      ((Element.new "UpdateIndicator").with_text "OriginalMessage")
    let (root, ctr) :=
      if request.releases.isEmpty then (root, 0)
      else
        let (rl, c1) := ASTGenerator.generate_resource_list 0 request.releases
        (root.add_child rl, c1)
    let (root, _) :=
      if request.releases.isEmpty then (root, ctr)
      else
        let (rl, c2) := ASTGenerator.generate_release_list ctr request.releases
        (root.add_child rl, c2)
    let root :=
      if request.deals.isEmpty then root
      else root.add_child (ASTGenerator.generate_deal_list request.deals)
    .ok { root := root
          namespaces := ASTGenerator.get_namespaces request.version
          schema_location := ASTGenerator.get_schema_location request.version }

/-! ## SHA-256

canonical/mod.rs uses `sha2::Sha256` and the stable-hash generator a
256-bit digest; this is a direct Nat-based implementation of FIPS 180-4
SHA-256 (words are Nats reduced mod 2^32). -/

def w32 : Nat := 4294967296

def mask32 (x : Nat) : Nat := x % w32

def rotr32 (n x : Nat) : Nat :=
  ((x >>> n) ||| ((x <<< (32 - n)) % w32))

def shaCh (e f g : Nat) : Nat :=
  Nat.xor (e &&& f) ((Nat.xor e (w32 - 1)) &&& g)

def shaMaj (a b c : Nat) : Nat :=
  Nat.xor (Nat.xor (a &&& b) (a &&& c)) (b &&& c)

def bigSigma0 (x : Nat) : Nat :=
  Nat.xor (Nat.xor (rotr32 2 x) (rotr32 13 x)) (rotr32 22 x)

def bigSigma1 (x : Nat) : Nat :=
  Nat.xor (Nat.xor (rotr32 6 x) (rotr32 11 x)) (rotr32 25 x)

def smallSigma0 (x : Nat) : Nat :=
  Nat.xor (Nat.xor (rotr32 7 x) (rotr32 18 x)) (x >>> 3)

def smallSigma1 (x : Nat) : Nat :=
  Nat.xor (Nat.xor (rotr32 17 x) (rotr32 19 x)) (x >>> 10)

def shaK : List Nat :=
  [1116352408, 1899447441, 3049323471, 3921009573, 961987163,
   1508970993, 2453635748, 2870763221, 3624381080, 310598401,
   607225278, 1426881987, 1925078388, 2162078206, 2614888103,
   3248222580, 3835390401, 4022224774, 264347078, 604807628,
   770255983, 1249150122, 1555081692, 1996064986, 2554220882,
   2821834349, 2952996808, 3210313671, 3336571891, 3584528711,
   113926993, 338241895, 666307205, 773529912, 1294757372,
   1396182291, 1695183700, 1986661051, 2177026350, 2456956037,
   2730485921, 2820302411, 3259730800, 3345764771, 3516065817,
   3600352804, 4094571909, 275423344, 430227734, 506948616,
   659060556, 883997877, 958139571, 1322822218, 1537002063,
   1747873779, 1955562222, 2024104815, 2227730452, 2361852424,
   2428436474, 2756734187, 3204031479, 3329325298]

def shaH0 : List Nat :=
  [1779033703, 3144134277, 1013904242, 2773480762,
   1359893119, 2600822924, 528734635, 1541459225]

/-- Big-endian bytes of `n`, `k` bytes wide. -/
def natToBytesBE (k n : Nat) : List Nat :=
  (List.range k).map (fun i => (n >>> (8 * (k - 1 - i))) % 256)

/-- Group bytes (big-endian) into 32-bit words; input length is a
multiple of 4. -/
def bytesToWords : List Nat → List Nat
  | b1 :: b2 :: b3 :: b4 :: rest =>
    (((b1 * 256 + b2) * 256 + b3) * 256 + b4) :: bytesToWords rest
  | _ => []

/-- Split a word list into 16-word chunks; input length is a multiple
of 16. -/
def chunks16 : List Nat → List (List Nat)
  | w1 :: w2 :: w3 :: w4 :: w5 :: w6 :: w7 :: w8 ::
    w9 :: w10 :: w11 :: w12 :: w13 :: w14 :: w15 :: w16 :: rest =>
    [w1, w2, w3, w4, w5, w6, w7, w8,
     w9, w10, w11, w12, w13, w14, w15, w16] :: chunks16 rest
  | _ => []

/-- Append the next message-schedule word. -/
def scheduleStep (ws : List Nat) : List Nat :=
  let i := ws.length
  ws ++ [mask32 (smallSigma1 (ws.getD (i - 2) 0) + ws.getD (i - 7) 0 +
    smallSigma0 (ws.getD (i - 15) 0) + ws.getD (i - 16) 0)]

def extendSchedule : Nat → List Nat → List Nat
  | 0, ws => ws
  | n + 1, ws => extendSchedule n (scheduleStep ws)

/-- One round of the SHA-256 compression function; the state is the
eight working words `[a,b,c,d,e,f,g,h]`. -/
def compressStep (st : List Nat) (kw : Nat × Nat) : List Nat :=
  let a := st.getD 0 0
  let b := st.getD 1 0
  let c := st.getD 2 0
  let d := st.getD 3 0
  let e := st.getD 4 0
  let f := st.getD 5 0
  let g := st.getD 6 0
  let h := st.getD 7 0
  let t1 := mask32 (h + bigSigma1 e + shaCh e f g + kw.1 + kw.2)
  let t2 := mask32 (bigSigma0 a + shaMaj a b c)
  [mask32 (t1 + t2), a, b, c, mask32 (d + t1), e, f, g]

def processChunk (hs : List Nat) (chunk : List Nat) : List Nat :=
  let ws := extendSchedule 48 chunk
  let st := (shaK.zip ws).foldl compressStep hs
  (hs.zip st).map (fun p => mask32 (p.1 + p.2))

/-- SHA-256 of a byte list, as a 32-byte list. -/
def sha256Bytes (msg : List Nat) : List Nat :=
  let padLen := (120 - ((msg.length + 1) % 64)) % 64
  let padded := msg ++ [0x80] ++ List.replicate padLen 0 ++
    natToBytesBE 8 (msg.length * 8)
  let hs := (chunks16 (bytesToWords padded)).foldl processChunk shaH0
  (hs.map (natToBytesBE 4)).flatten

/-- Bytes of a string (the inputs hashed by the sources are ASCII, on
which UTF-8 bytes and code points coincide). -/
def strBytes (s : String) : List Nat :=
  s.toList.map Char.toNat

def hexDigits : List Char := "0123456789abcdef".toList

/-- Lowercase hex rendering of a byte list (Rust `format!("{:x}", ...)`
on a digest). -/
def bytesToHex (bs : List Nat) : String :=
  String.mk ((bs.map (fun b => [hexDigits.getD (b / 16) '0',
    hexDigits.getD (b % 16) '0'])).flatten)

/-- canonical/mod.rs `DB_C14N::canonical_hash`: canonicalize, then
SHA-256 of the canonical bytes in lowercase hex.  Since `canonicalize`
panics on every input (its `parse_xml` is `todo!`), so does this. -/
def DB_C14N.canonical_hash (cfg : DeterminismConfig) (xml : String) :
    CanonOutcome :=
  match DB_C14N.canonicalize cfg xml with
  | .ok c => .ok (bytesToHex (sha256Bytes (strBytes c)))
  | .err e => .err e
  | .panicked => .panicked

/-! ## Stable-hash ID generator

lib.rs declares `pub mod id_generator` and re-exports
`StableHashGenerator`, `StableHashConfig`, `HashAlgorithm`, but the
module's file is not in the snapshot; builder.rs
`generate_stable_hash_ids` is its caller.  The generator itself is
modelled from the spec below. -/

/-- Modelled from the spec: the hash algorithm choice of
`StableHashConfig` (spec §4.4: "Hash algorithm is configurable"); the
default 256-bit digest is SHA-256. -/
inductive HashAlgorithm where
  | SHA256
  deriving DecidableEq

/-- Modelled from the spec: stable-hash configuration
(`id_generator.rs` is absent from the snapshot). -/
structure StableHashConfig where
  algorithm : HashAlgorithm
  deriving DecidableEq

def StableHashConfig.default : StableHashConfig := ⟨.SHA256⟩

/-- Modelled from the spec: the canonical byte string
`tag || 0x00 || field1 || 0x00 || field2 || …` of §4.4. -/
def stableCanonicalBytes (tag : String) (fields : List String) : List Nat :=
  strBytes tag ++ (fields.map (fun f => 0 :: strBytes f)).flatten

/-- Insert into a `≤`-sorted string list. -/
def insertSorted (s : String) : List String → List String
  | [] => [s]
  | t :: ts => if s < t then s :: t :: ts else t :: insertSorted s ts

/-- Lexicographic insertion sort (for §4.4's "sorted list" inputs). -/
def sortStrings (l : List String) : List String :=
  l.foldr insertSorted []

def stableDigest (cfg : StableHashConfig) (bytes : List Nat) : List Nat :=
  match cfg.algorithm with
  | .SHA256 => sha256Bytes bytes

def base32Alphabet : List Char := "abcdefghijklmnopqrstuvwxyz234567".toList

/-- Modelled from the spec: base32/lowercased first 20 characters of a
256-bit digest (§4.4). -/
def base32First20 (digest : List Nat) : String :=
  let big := digest.foldl (fun acc b => acc * 256 + b) 0
  String.mk ((List.range 20).map (fun i =>
    base32Alphabet.getD ((big >>> (256 - 5 * (i + 1))) % 32) 'a'))

/-- Modelled from the spec: an ID is the one-letter kind code followed
by the base32 prefix of the digest of the canonical byte string (§4.4). -/
def stableId (cfg : StableHashConfig) (kind : String) (fields : List String) :
    String :=
  kind ++ base32First20 (stableDigest cfg (stableCanonicalBytes kind fields))

/-- Modelled from the spec: `StableHashGenerator::generate_party_id`
(domain tag `P`; fields: party identifier + tag disambiguator, §4.4),
with the extra fields builder.rs passes appended.  Pure; never fails. -/
def StableHashGenerator.generate_party_id (cfg : StableHashConfig)
    (party_identifier disambiguator : String) (extra : List String) :
    Except BuildError String :=
  .ok (stableId cfg "P" ([party_identifier, disambiguator] ++ extra))

/-- Modelled from the spec: `generate_release_id` (domain tag `L`;
fields: product code, release type, sorted constituent recording codes,
sorted territory set, §4.4). -/
def StableHashGenerator.generate_release_id (cfg : StableHashConfig)
    (product_code release_type : String)
    (recording_codes territories : List String) :
    Except BuildError String :=
  .ok (stableId cfg "L" ([product_code, release_type] ++
    sortStrings recording_codes ++ sortStrings territories))

/-- Modelled from the spec: `generate_resource_id` (domain tag `R`;
fields: recording code, duration seconds, optional content hash, §4.4). -/
def StableHashGenerator.generate_resource_id (cfg : StableHashConfig)
    (recording_code : String) (duration_seconds : Nat)
    (content_hash : Option String) : Except BuildError String :=
  .ok (stableId cfg "R" ([recording_code, toString duration_seconds] ++
    (match content_hash with | some h => [h] | none => [])))



/-! ## Preflight validation

lib.rs declares `pub mod preflight` (re-exporting `PreflightValidator`,
`ValidationConfig`, `ValidationResult`, `PreflightLevel`), but the
module's file is not in the snapshot; builder.rs is its caller.  The
validator is modelled from the spec (§4.6 and scenario S5). -/

/-- preflight `PreflightLevel` (re-exported by builder.rs). -/
inductive PreflightLevel where
  | NoValidation | Warn | Strict
  deriving DecidableEq

/-- Modelled from the spec: the `ValidationConfig` built by builder.rs
lines 207-217 (`preflight.rs` is absent from the snapshot). -/
structure ValidationConfig where
  level : PreflightLevel
  profile : Option String
  validate_identifiers : Bool
  validate_checksums : Bool
  check_required_fields : Bool
  validate_dates : Bool
  validate_references : Bool
  deriving DecidableEq

/-- Modelled from the spec: a validation diagnostic (code,
human-readable message, location; §6 error taxonomy). -/
structure ValidationMessage where
  code : String
  message : String
  location : String
  deriving DecidableEq

/-- Modelled from the spec: `ValidationResult` =
`{errors, warnings, info, passed}` (§4.6). -/
structure ValidationResult where
  errors : List ValidationMessage
  warnings : List ValidationMessage
  info : List ValidationMessage
  passed : Bool
  deriving DecidableEq

/-- Resource references defined in the request: the tracks'
`resource_reference` values (reference closure is checked against the
defining occurrences, §4.3). -/
def definedResourceRefs (req : BuildRequest) : List String :=
  (req.releases.map (fun rel =>
    rel.tracks.filterMap (fun t => t.resource_reference))).flatten

/-- Modelled from the spec: reference-integrity diagnostics — an
`UnresolvedReference` entry for every release-level resource reference
with no defining occurrence (§4.3, §4.6, S5). -/
def unresolvedReferenceDiags (req : BuildRequest) : List ValidationMessage :=
  (req.releases.map (fun rel =>
    (rel.resource_references.getD []).filterMap (fun r =>
      if (definedResourceRefs req).contains r then none
      else some { code := "UnresolvedReference"
                  message := "Unresolved reference: " ++ r
                  location := "/releases" }))).flatten

/-- Modelled from the spec: `PreflightValidator::validate` (§4.6).
Levels: None skips; Warn collects the diagnostics without failing
(they surface as warnings); Strict reports them as errors and clears
`passed`.  The Rust call site (`validator.validate(&request)?`) treats
its own return as fallible; the modelled validator always returns a
result. -/
def PreflightValidator.validate (cfg : ValidationConfig)
    (req : BuildRequest) : ValidationResult :=
  match cfg.level with
  | .NoValidation => { errors := [], warnings := [], info := [], passed := true }
  | .Warn =>
    let diags := if cfg.validate_references then unresolvedReferenceDiags req
      else []
    { errors := [], warnings := diags, info := [], passed := diags.isEmpty }
  | .Strict =>
    let diags := if cfg.validate_references then unresolvedReferenceDiags req
      else []
    { errors := diags, warnings := [], info := [], passed := diags.isEmpty }

/-! ## builder.rs — ID generation -/

/-- builder.rs `BuildOptions`. -/
structure BuildOptions where
  determinism : Option DeterminismConfig
  preflight_level : PreflightLevel
  id_strategy : IdStrategy
  stable_hash_config : Option StableHashConfig

/-- builder.rs `impl Default for BuildOptions`. -/
def BuildOptions.default : BuildOptions :=
  { determinism := none
    preflight_level := .Warn
    id_strategy := .UUID
    stable_hash_config := none }

/-- Track loop of builder.rs `generate_uuid_ids`: a fresh simple-format
UUID for every track without a resource reference, threading the draw
counter. -/
def uuidAssignTracks (env : Env) (c : Nat) :
    List TrackRequest → List TrackRequest × Nat
  | [] => ([], c)
  | t :: ts =>
    match t.resource_reference with
    | some _ =>
      let (rest, c') := uuidAssignTracks env c ts
      (t :: rest, c')
    | none =>
      let t' := { t with resource_reference := some ("A" ++ env.uuid c) }
      let (rest, c') := uuidAssignTracks env (c + 1) ts
      (t' :: rest, c')

/-- Release loop of builder.rs `generate_uuid_ids`: release reference
first, then its tracks, in iteration order. -/
def uuidAssignReleases (env : Env) (c : Nat) :
    List ReleaseRequest → List ReleaseRequest × Nat
  | [] => ([], c)
  | r :: rs =>
    let (r1, c1) :=
      match r.release_reference with
      | some _ => (r, c)
      | none => ({ r with release_reference := some ("R" ++ env.uuid c) }, c + 1)
    let (tracks', c2) := uuidAssignTracks env c1 r1.tracks
    let (rest, c3) := uuidAssignReleases env c2 rs
    ({ r1 with tracks := tracks' } :: rest, c3)

/-- Deal loop shared by the UUID and sequential strategies:
`D{idx+1}` for every deal without a reference. -/
def assignDealRefs (deals : List DealRequest) : List DealRequest :=
  deals.enum.map (fun p =>
    match p.2.deal_reference with
    | some _ => p.2
    | none => { p.2 with deal_reference := some ("D" ++ toString (p.1 + 1)) })

/-- builder.rs `generate_uuid_ids` (`Uuid::new_v4()` draws made
explicit; returns the next unconsumed draw index). -/
def DDEXBuilder.generate_uuid_ids (env : Env) (req : BuildRequest) :
    BuildRequest × Nat :=
  let (header, c0) :=
    match req.header.message_id with
    | some _ => (req.header, 0)
    | none => ({ req.header with message_id := some ("MSG_" ++ env.uuid 0) }, 1)
  let (releases, c1) := uuidAssignReleases env c0 req.releases
  ({ req with header := header, releases := releases,
              deals := assignDealRefs req.deals }, c1)

/-- builder.rs `generate_sequential_ids` (message id from
`Utc::now().timestamp()`; positional references). -/
def DDEXBuilder.generate_sequential_ids (env : Env) (req : BuildRequest) :
    BuildRequest :=
  let header :=
    match req.header.message_id with
    | some _ => req.header
    | none => { req.header with
                message_id := some ("MSG_" ++ env.now_timestamp) }
  let releases := req.releases.enum.map (fun p =>
    let idx := p.1
    let r := p.2
    let r := match r.release_reference with
      | some _ => r
      | none => { r with release_reference := some ("R" ++ toString (idx + 1)) }
    { r with tracks := r.tracks.enum.map (fun q =>
        match q.2.resource_reference with
        | some _ => q.2
        | none =>
          let aref := "A" ++ toString (idx * 1000 + q.1 + 1)
          { q.2 with resource_reference := some aref }) })
  { req with header := header, releases := releases,
             deals := assignDealRefs req.deals }

/-- builder.rs `generate_stable_hash_ids`.  The message id, when
absent, is derived from the sender/recipient names and — directly from
the wall clock — `Utc::now().format("%Y%m%d")` (builder.rs line 405). -/
def DDEXBuilder.generate_stable_hash_ids (env : Env) (req : BuildRequest)
    (options : BuildOptions) : Except BuildError BuildRequest := do
  let cfg := options.stable_hash_config.getD StableHashConfig.default
  let header ←
    match req.header.message_id with
    | some _ => pure req.header
    | none =>
      let sender_name :=
        (req.header.message_sender.party_name.head?.map
          (fun s => s.text)).getD ""
      let recipient_name :=
        (req.header.message_recipient.party_name.head?.map
          (fun s => s.text)).getD ""
      match StableHashGenerator.generate_party_id cfg
          (sender_name ++ "-" ++ recipient_name) "MessageHeader"
          [env.now_ymd] with
      | .error e => throw e
      | .ok msg_id => pure { req.header with message_id := some msg_id }
  let releases ← req.releases.mapM (fun rel => do
    let rel ←
      match rel.release_reference with
      | some _ => pure rel
      | none =>
        match StableHashGenerator.generate_release_id cfg
            (rel.upc.getD rel.release_id) "Album"
            (rel.tracks.map (fun t => t.isrc)) [] with
        | .error e => throw e
        | .ok rid => pure { rel with release_reference := some rid }
    let tracks ← rel.tracks.mapM (fun t =>
      match t.resource_reference with
      | some _ => pure t
      | none =>
        let duration_seconds := (parse_duration_to_seconds t.duration).getD 0
        match StableHashGenerator.generate_resource_id cfg t.isrc
            duration_seconds none with
        | .error e => throw e
        | .ok rid => pure { t with resource_reference := some rid })
    pure { rel with tracks := tracks })
  let deals := req.deals.map (fun deal =>
    match deal.deal_reference with
    | some _ => deal
    | none =>
      let territories := String.intercalate ","
        deal.deal_terms.territory_code
      let dref := "DEAL_" ++ deal.deal_terms.commercial_model_type ++
        "_" ++ territories
      { deal with deal_reference := some dref })
  pure { req with header := header, releases := releases, deals := deals }

/-- builder.rs `generate_ids` (strategy dispatch; UUIDv7 falls back to
UUID v4).  Returns the rewritten request and the number of UUID draws
consumed. -/
def DDEXBuilder.generate_ids (env : Env) (req : BuildRequest)
    (options : BuildOptions) : Except BuildError (BuildRequest × Nat) :=
  match options.id_strategy with
  | .UUID => .ok (DDEXBuilder.generate_uuid_ids env req)
  | .UUIDv7 => .ok (DDEXBuilder.generate_uuid_ids env req)
  | .Sequential => .ok (DDEXBuilder.generate_sequential_ids env req, 0)
  | .StableHash =>
    match DDEXBuilder.generate_stable_hash_ids env req options with
    | .error e => .error e
    | .ok req' => .ok (req', 0)

/-! ## builder.rs — `DDEXBuilder::build` -/

/-- Outcome of `DDEXBuilder::build`: `Ok`, `Err`, or a reached panic. -/
inductive BuildOutcome where
  | ok (r : BuildResult)
  | err (e : BuildError)
  | panicked
  deriving DecidableEq

/-- The compile-time `env!("CARGO_PKG_VERSION")` constant (exact value
immaterial to every claim). -/
def cargoPkgVersion : String := "0.0.0"

/-- lib.rs `DB_C14N_VERSION`. -/
def DB_C14N_VERSION : String := "1.0"

/-- builder.rs `DDEXBuilder::build`: preflight, ID generation, AST
generation, XML writing, then canonicalization when
`canon_mode == DbC14n` (the default).  The canonicalizer's `parse_xml`
is `todo!()`, so the canonical branch panics whenever it is reached. -/
def DDEXBuilder.build (env : Env) (request : BuildRequest)
    (options : BuildOptions) : BuildOutcome :=
  let vcfg : ValidationConfig :=
    { level := options.preflight_level
      profile := request.profile
      validate_identifiers := true
      validate_checksums := true
      check_required_fields := true
      validate_dates := true
      validate_references := true }
  let validation_result := PreflightValidator.validate vcfg request
  let warnings := validation_result.warnings.map (fun w =>
    { code := w.code, message := w.message, location := some w.location })
  if ¬ validation_result.passed ∧ options.preflight_level = .Strict then
    .err (.ValidationFailed (validation_result.errors.map (fun e =>
      e.code ++ ": " ++ e.message)))
  else
    match DDEXBuilder.generate_ids env request options with
    | .error e => .err e
    | .ok (request', uuidCtr) =>
      match ASTGenerator.generate env uuidCtr request' with
      | .error e => .err e
      | .ok ast =>
        let config := options.determinism.getD DeterminismConfig.default
        let xml := XmlWriter.write config ast
        let banner := if config.emit_reproducibility_banner then
            some ("Generated by DDEX Builder v" ++ cargoPkgVersion ++
              " with DB-C14N/" ++ DB_C14N_VERSION)
          else none
        let stats (final_xml : String) : BuildStatistics :=
          { releases := request'.releases.length
            tracks := (request'.releases.map
              (fun r => r.tracks.length)).sum
            deals := request'.deals.length
            generation_time_ms := env.elapsed_ms
            xml_size_bytes := final_xml.length }
        if config.canon_mode = .DbC14n then
          match DB_C14N.canonicalize config xml with
          | .panicked => .panicked
          | .err e => .err e
          | .ok canonical =>
            match DB_C14N.canonical_hash config canonical with
            | .panicked => .panicked
            | .err e => .err e
            | .ok h =>
              .ok { xml := canonical
                    warnings := warnings
                    errors := []
                    statistics := stats canonical
                    canonical_hash := some h
                    reproducibility_banner := banner }
        else
          .ok { xml := xml
                warnings := warnings
                errors := []
                statistics := stats xml
                canonical_hash := none
                reproducibility_banner := banner }

/-! ## presets/mod.rs and lib.rs — presets and the `Builder` -/

/-- presets/mod.rs `DdexVersion`. -/
inductive DdexVersion where
  | Ern382 | Ern42 | Ern43 | Ern41
  deriving DecidableEq

/-- presets/mod.rs `MessageProfile`. -/
inductive MessageProfile where
  | AudioAlbum | AudioSingle | VideoAlbum | VideoSingle | Mixed
  deriving DecidableEq

/-- presets/mod.rs `ValidationRule`. -/
inductive ValidationRule where
  | Required
  | MinLength (n : Nat)
  | MaxLength (n : Nat)
  | Pattern (p : String)
  | OneOf (choices : List String)
  | AudioQuality (min_bit_depth : Nat) (min_sample_rate : Nat)
  | TerritoryCode (allowed : List String)
  | Custom (rule : String)
  deriving DecidableEq

/-- presets/mod.rs `PresetConfig`. -/
structure PresetConfig where
  version : DdexVersion
  profile : MessageProfile
  required_fields : List String
  validation_rules : List (String × ValidationRule)
  default_values : List (String × String)
  custom_mappings : List (String × String)
  territory_codes : List String
  distribution_channels : List String
  release_types : List String
  deriving DecidableEq

/-- presets/mod.rs `PresetSource`. -/
inductive PresetSource where
  | PublicDocs | CustomerFeedback | Community
  deriving DecidableEq

/-- presets/mod.rs `PresetDefaults`. -/
structure PresetDefaults where
  message_control_type : Option String
  territory_code : List String
  distribution_channel : List String
  deriving DecidableEq

/-- presets/mod.rs `PartnerPreset`. -/
structure PartnerPreset where
  name : String
  description : String
  source : PresetSource
  provenance_url : Option String
  version : String
  locked : Bool
  disclaimer : String
  determinism : DeterminismConfig
  defaults : PresetDefaults
  required_fields : List String
  format_overrides : List (String × String)
  config : PresetConfig
  validation_rules : List (String × ValidationRule)
  custom_mappings : List (String × String)
  deriving DecidableEq

/-- presets/mod.rs `spotify_audio_43`. -/
def spotify_audio_43 : PartnerPreset :=
  let validation_rules : List (String × ValidationRule) :=
    [("ISRC", .Required), ("UPC", .Required), ("ReleaseDate", .Required),
     ("Genre", .Required), ("ExplicitContent", .Required),
     ("AudioQuality", .AudioQuality 16 44100)]
  let required_fields :=
    ["ISRC", "UPC", "ReleaseDate", "Genre", "ExplicitContent"]
  { name := "spotify_audio_43"
    description := "Spotify Audio Album ERN 4.3 requirements"
    source := .PublicDocs
    provenance_url :=
      some "https://support.spotify.com/artists/article/ddex-delivery-spec"
    version := "1.0.0"
    locked := false
    disclaimer := "Community-maintained config template. Not an official spec."
    determinism := DeterminismConfig.default
    defaults := { message_control_type := some "LiveMessage"
                  territory_code := ["Worldwide"]
                  distribution_channel := ["01"] }
    required_fields := required_fields
    format_overrides := []
    config := { version := .Ern43
                profile := .AudioAlbum
                required_fields := required_fields
                validation_rules := validation_rules
                default_values :=
                  [("MessageControlType", "LiveMessage"),
                   ("TerritoryCode", "Worldwide"),
                   ("DistributionChannel", "01")]
                custom_mappings := []
                territory_codes := ["Worldwide"]
                distribution_channels := ["01"]
                release_types := ["Album", "Single", "EP"] }
    validation_rules := validation_rules
    custom_mappings := [] }

/-- presets/mod.rs `apple_music_43`. -/
def apple_music_43 : PartnerPreset :=
  let validation_rules : List (String × ValidationRule) :=
    [("ISRC", .Required), ("UPC", .Required), ("ReleaseDate", .Required)]
  let required_fields := ["ISRC", "UPC", "ReleaseDate"]
  { name := "apple_music_43"
    description := "Apple Music ERN 4.3 requirements"
    source := .PublicDocs
    provenance_url := some "https://help.apple.com/itc/musicspec/"
    version := "1.0.0"
    locked := false
    disclaimer := "Community-maintained config template. Not an official spec."
    determinism := DeterminismConfig.default
    defaults := { message_control_type := some "LiveMessage"
                  territory_code := ["Worldwide"]
                  distribution_channel := ["01"] }
    required_fields := required_fields
    format_overrides := []
    config := { version := .Ern43
                profile := .AudioAlbum
                required_fields := required_fields
                validation_rules := validation_rules
                default_values :=
                  [("MessageControlType", "LiveMessage"),
                   ("TerritoryCode", "Worldwide"),
                   ("DistributionChannel", "01")]
                custom_mappings := []
                territory_codes := ["Worldwide"]
                distribution_channels := ["01"]
                release_types := ["Album", "Single"] }
    validation_rules := validation_rules
    custom_mappings := [] }

/-- presets/mod.rs `all_presets`: the two legacy presets; the
`presets::spotify` and `presets::youtube` submodules declared there are
absent from the snapshot and would extend this map with further entries
(no claim depends on which other names exist). -/
def all_presets : List (String × PartnerPreset) :=
  [("spotify_audio_43", spotify_audio_43),
   ("apple_music_43", apple_music_43)]

/-- lib.rs `Builder` (the `version_manager` field belongs to the
`versions` module, absent from the snapshot and untouched by
`apply_preset`; it is omitted). -/
structure Builder where
  config : DeterminismConfig
  presets : List (String × PartnerPreset)
  locked_preset : Option String
  target_version : Option DdexVersion
  deriving DecidableEq

/-- lib.rs `Builder::new`. -/
def Builder.new : Builder :=
  { config := DeterminismConfig.default
    presets := all_presets
    locked_preset := none
    target_version := none }

/-- lib.rs `Builder::with_config`. -/
def Builder.with_config (config : DeterminismConfig) : Builder :=
  { config := config
    presets := all_presets
    locked_preset := none
    target_version := none }

/-- Rust `IndexMap::get` on the preset table. -/
def lookupPreset (name : String) (presets : List (String × PartnerPreset)) :
    Option PartnerPreset :=
  (presets.find? (fun kv => kv.1 = name)).map (fun kv => kv.2)

/-- lib.rs `Builder::apply_preset` on `&mut self`: the pair is the
returned `Result` and the builder state after the call.  An unknown
name returns `InvalidFormat` before any mutation; a known preset
overwrites `config` and, when `lock` is set, records the name in
`locked_preset`.  No path consults the existing `locked_preset`. -/
def Builder.apply_preset (b : Builder) (preset_name : String) (lock : Bool) :
    Except BuildError Unit × Builder :=
  match lookupPreset preset_name b.presets with
  | none =>
    (.error (.InvalidFormat "preset"
      ("Unknown preset: " ++ preset_name)), b)
  | some preset =>
    (.ok (), { b with
      config := preset.determinism
      locked_preset := if lock then some preset_name else b.locked_preset })

/-- lib.rs `Builder::is_preset_locked`. -/
def Builder.is_preset_locked (b : Builder) : Bool :=
  b.locked_preset.isSome

/-- lib.rs `Builder::build_internal`: constructs a fresh
`DDEXBuilder` and builds with `BuildOptions::default()` (the passed-in
builder's own configuration is not consulted). -/
def Builder.build_internal (env : Env) (_b : Builder)
    (request : BuildRequest) : BuildOutcome :=
  DDEXBuilder.build env request BuildOptions.default

/-! ## determinism.rs — `DeterminismVerifier` -/

/-- Outcome of collecting the XML of repeated builds. -/
inductive StringsOutcome where
  | ok (xs : List String)
  | err (e : BuildError)
  | panicked
  deriving DecidableEq

/-- The iteration loop of determinism.rs `DeterminismVerifier::verify`:
each pass constructs `Builder::with_config(config)` and calls
`build_internal`, collecting the produced XML. -/
def verifyCollect (env : Env) (req : BuildRequest)
    (config : DeterminismConfig) : Nat → StringsOutcome
  | 0 => .ok []
  | n + 1 =>
    match Builder.build_internal env (Builder.with_config config) req with
    | .panicked => .panicked
    | .err e => .err e
    | .ok r =>
      match verifyCollect env req config n with
      | .ok xs => .ok (r.xml :: xs)
      | .err e => .err e
      | .panicked => .panicked

/-- Outcome of `DeterminismVerifier::verify`. -/
inductive VerifyOutcome where
  | ok (is_deterministic : Bool)
  | err (e : BuildError)
  | panicked
  deriving DecidableEq

/-- determinism.rs `DeterminismVerifier::verify` (lines 200-229):
trivially true below two iterations; otherwise builds `iterations`
times and compares every result with the first. -/
def DeterminismVerifier.verify (env : Env) (req : BuildRequest)
    (config : DeterminismConfig) (iterations : Nat) : VerifyOutcome :=
  if iterations < 2 then .ok true
  else
    match verifyCollect env req config iterations with
    | .panicked => .panicked
    | .err e => .err e
    | .ok xs =>
      match xs with
      | [] => .ok true
      | first :: rest => .ok (rest.all (fun r => r = first))

/-- The XML of a successful build (`None` on error or panic). -/
def BuildOutcome.xml? : BuildOutcome → Option String
  | .ok r => some r.xml
  | _ => none

/-- The warnings of a successful build. -/
def BuildOutcome.warnings? : BuildOutcome → Option (List BuildWarning)
  | .ok r => some r.warnings
  | _ => none

/-! ## Concrete inputs used by the claim theorems -/

/-- A party with one name. -/
def sampleParty (nm : String) : PartyRequest :=
  { party_name := [{ text := nm, language_code := none }]
    party_id := none
    party_reference := none }

/-- A header with every identifier supplied. -/
def fullHeader : MessageHeaderRequest :=
  { message_id := some "MSG1"
    message_sender := sampleParty "SenderCo"
    message_recipient := sampleParty "RecipientCo"
    message_control_type := none
    message_created_date_time := some "2025-01-01T09:00:00.000Z" }

/-- A track with its resource reference supplied. -/
def sampleTrack : TrackRequest :=
  { track_id := "T1"
    resource_reference := some "A1"
    isrc := "USRC17607839"
    title := "First Track"
    duration := "PT3M45S"
    artist := "Artist" }

/-- A release with its references supplied. -/
def sampleRelease : ReleaseRequest :=
  { release_id := "0123456789012"
    release_reference := some "R1"
    title := [{ text := "Sample Album", language_code := none }]
    artist := "Artist"
    label := none
    release_date := none
    upc := none
    tracks := [sampleTrack]
    resource_references := none }

/-- A minimal, fully-referenced ERN 4.3 request. -/
def sampleRequest : BuildRequest :=
  { header := fullHeader
    version := "4.3"
    profile := none
    releases := [sampleRelease]
    deals := []
    extensions := none }

/-- One concrete environment. -/
def envA : Env :=
  { now_datetime := "2025-01-01T10:00:00.000Z"
    now_ymd := "20250101"
    now_timestamp := "1735725600"
    uuid := fun n => "cafe" ++ toString n
    elapsed_ms := 0 }

/-- The same environment one millisecond later: only the wall clock
observation differs. -/
def envB : Env :=
  { envA with now_datetime := "2025-01-01T10:00:00.001Z" }

/-- The same environment one day later (different `%Y%m%d` rendering). -/
def envNextDay : Env :=
  { envA with now_ymd := "20250102" }

/-- The default configuration with the canonicalization stage switched
off (`Pretty` output mode). -/
def prettyConfig : DeterminismConfig :=
  { DeterminismConfig.default with canon_mode := .Pretty }

/-- Default options with `Pretty` canonicalization mode. -/
def prettyOptions : BuildOptions :=
  { BuildOptions.default with determinism := some prettyConfig }

/-! ## Further concrete inputs for individual claims -/

/-- The `sampleRequest` content under a different message id, standing
for the message parsed back from a canonical document (claim C2). -/
def roundTripRequest : BuildRequest :=
  { sampleRequest with
    header := { fullHeader with message_id := some "MSG_RT" } }

/-- A minimal canonical ERN document (the canonicalizer panics on every
input, this one included). -/
def canonicalDocB : String :=
  "<?xml version=\"1.0\" encoding=\"UTF-8\"?>\n<ern:NewReleaseMessage xmlns:ern=\"http://ddex.net/xml/ern/43\"/>\n"

/-- Options selecting the stable-hash ID strategy. -/
def stableHashOptions : BuildOptions :=
  { BuildOptions.default with id_strategy := .StableHash }

/-- A request with no identifiers supplied, so every ID-generation
branch fires (claim C5). -/
def noIdRequest : BuildRequest :=
  { header :=
      { message_id := none
        message_sender := sampleParty "SenderCo"
        message_recipient := sampleParty "RecipientCo"
        message_control_type := none
        message_created_date_time := some "2025-01-01T09:00:00.000Z" }
    version := "4.3"
    profile := none
    releases := [{ sampleRelease with
      release_reference := none
      tracks := [{ sampleTrack with resource_reference := none }] }]
    deals := []
    extensions := none }

/-- The message id assigned by the stable-hash strategy (builder.rs
`generate_stable_hash_ids`), or `None` if that strategy errored. -/
def stableMessageId (env : Env) (req : BuildRequest) : Option String :=
  match DDEXBuilder.generate_stable_hash_ids env req stableHashOptions with
  | .ok r => r.header.message_id
  | .error _ => none

/-- The track resource references assigned by the stable-hash strategy. -/
def stableTrackRefs (env : Env) (req : BuildRequest) :
    Option (List (Option String)) :=
  match DDEXBuilder.generate_stable_hash_ids env req stableHashOptions with
  | .ok r => some ((r.releases.map (fun rel =>
      rel.tracks.map (fun t => t.resource_reference))).flatten)
  | .error _ => none

/-- Root element whose attribute map received `b` then `a` (claim C6). -/
def elemBA : Element :=
  ((Element.new "X").with_attr "b" "1").with_attr "a" "2"

/-- The same attribute set inserted in the opposite order. -/
def elemAB : Element :=
  ((Element.new "X").with_attr "a" "2").with_attr "b" "1"

def astBA : AST := { root := elemBA, namespaces := [], schema_location := none }

def astAB : AST := { root := elemAB, namespaces := [], schema_location := none }

/-- Scenario S5 (claim C7): a release listing resource reference `A7`
that no track defines. -/
def s5Request : BuildRequest :=
  { sampleRequest with
    releases := [{ sampleRelease with resource_references := some ["A7"] }] }

/-- Default options at Strict preflight level. -/
def strictOptions : BuildOptions :=
  { BuildOptions.default with preflight_level := .Strict }

/-- A builder that has applied `spotify_audio_43` with `lock = true`
(claim C8). -/
def lockedBuilder : Builder :=
  (Builder.new.apply_preset "spotify_audio_43" true).2

/-- Fold a key/value list into an element through `with_attr`
(the builder-pattern construction the generator uses). -/
def foldWithAttrs (name : String) (l : List (String × String)) : Element :=
  l.foldl (fun e kv => e.with_attr kv.1 kv.2) (Element.new name)

/-! ## Supporting lemmas -/

theorem str_append_empty (s : String) : s ++ "" = s := by
  cases s with
  | mk data => show String.mk (data ++ []) = String.mk data
               rw [List.append_nil]

theorem str_empty_append (s : String) : "" ++ s = s := rfl

/-- The writer indent `get_indent` at depth zero is empty for every configuration. -/
theorem get_indent_zero (cfg : DeterminismConfig) :
    XmlWriter.get_indent cfg 0 = "" := by
  unfold XmlWriter.get_indent
  cases h : cfg.indent_char <;> simp [repeatStr] <;> rfl

/-- Inserting a fresh key into the `IndexMap` appends. -/
theorem indexMapInsert_fresh (m : List (String × String)) (k v : String)
    (h : k ∉ m.map Prod.fst) : indexMapInsert m k v = m ++ [(k, v)] := by
  induction m with
  | nil => rfl
  | cons hd tl ih =>
    simp only [List.map_cons, List.mem_cons] at h
    push_neg at h
    unfold indexMapInsert
    rw [if_neg (fun hk => h.1 hk.symm), ih h.2]
    simp

/-- Folding `with_attr` over pairwise-fresh keys appends them in
insertion order after the accumulator. -/
theorem foldWithAttrs_go (l : List (String × String)) :
    ∀ (name : String) (acc : List (String × String)) (ch : List Node)
      (ns : Option String),
    (l.map Prod.fst).Nodup →
    (∀ k, k ∈ l.map Prod.fst → k ∉ acc.map Prod.fst) →
    l.foldl (fun e kv => e.with_attr kv.1 kv.2) (Element.mk name ns acc ch) =
      Element.mk name ns (acc ++ l) ch := by
  induction l with
  | nil => intro name acc ch ns _ _; simp
  | cons hd tl ih =>
    intro name acc ch ns hnodup hdisj
    simp only [List.foldl_cons]
    have hfresh : hd.1 ∉ acc.map Prod.fst :=
      hdisj hd.1 (by simp)
    show tl.foldl (fun e kv => e.with_attr kv.1 kv.2)
        (Element.mk name ns (indexMapInsert acc hd.1 hd.2) ch) = _
    rw [indexMapInsert_fresh acc hd.1 hd.2 hfresh]
    rw [List.map_cons] at hnodup
    have := ih name (acc ++ [(hd.1, hd.2)]) ch ns hnodup.of_cons
      (by
        intro k hk
        simp only [List.map_append, List.mem_append, List.map_cons,
          List.mem_singleton, List.map_nil, List.mem_cons]
        rintro (hacc | hhd)
        · exact hdisj k (by simp [hk]) hacc
        · simp only [List.map_nil, List.mem_cons, List.not_mem_nil,
            or_false] at hhd
          exact (List.nodup_cons.mp hnodup).1 (hhd ▸ hk))
    rw [this, List.append_assoc]
    rfl

/-! ## The claims -/

/-- C1.  The spec claims `build(M, C)` is byte-deterministic for every
request and canonical configuration.  The code contradicts this (and
its own determinism test suite) twice over: under the canonical default
configuration `build` panics in the unimplemented
`DB_C14N::parse_xml` (`todo!`), returning no bytes at all; and the
generated XML embeds `Utc::now()` with millisecond precision
(generator/mod.rs line 91), so with canonicalization switched off two
runs one millisecond apart yield different bytes on the same request. -/
theorem C1_build_not_byte_deterministic :
    DDEXBuilder.build envA sampleRequest BuildOptions.default = .panicked ∧
    (DDEXBuilder.build envA sampleRequest prettyOptions).xml? ≠
      (DDEXBuilder.build envB sampleRequest prettyOptions).xml? := by
  constructor
  · rfl
  · decide

/-- C2.  Round-trip identity `build(parse(B, preserveAll), canonical) == B`
cannot hold: whatever message the parse side produces, the canonical-mode
build panics in the unimplemented `DB_C14N::parse_xml` (`todo!`) before
returning any bytes. -/
theorem C2_canonical_roundtrip_build_panics :
    DDEXBuilder.build envA roundTripRequest BuildOptions.default = .panicked :=
  rfl

/-- C3.  Canonicalization idempotence is unattainable: `canonicalize`
panics (`todo!("Parse XML")` in `parse_xml`) on every input, the
canonical document `canonicalDocB` included, so it never produces the
output the idempotence equation would be about. -/
theorem C3_canonicalize_panics_everywhere :
    (∀ cfg B, DB_C14N.canonicalize cfg B = .panicked) ∧
    DB_C14N.canonicalize DeterminismConfig.default canonicalDocB =
      .panicked :=
  ⟨fun _ _ => rfl, rfl⟩

/-- C4.  The claim that build, canonicalize, canonical-hash and
determinism verification always return `Ok`/`Err` and never panic is
refuted: `canonicalize` and `canonical_hash` panic on every input, and
both the canonical-mode `build` and `DeterminismVerifier::verify` (with
at least two iterations) reach that panic. -/
theorem C4_core_operations_panic :
    (∀ cfg B, DB_C14N.canonicalize cfg B = .panicked) ∧
    (∀ cfg B, DB_C14N.canonical_hash cfg B = .panicked) ∧
    DDEXBuilder.build envA sampleRequest BuildOptions.default = .panicked ∧
    DeterminismVerifier.verify envA sampleRequest
      DeterminismConfig.default 10 = .panicked := by
  refine ⟨fun _ _ => rfl, fun _ _ => rfl, rfl, ?_⟩
  decide

/-- C5.  Stable-hash IDs are claimed to be pure in the stable inputs
and unaffected by the clock; but builder.rs line 405 feeds
`Utc::now().format("%Y%m%d")` into the message-id hash, so the same
request gets different message ids on different days.  The
release/resource ids of the same run are clock-independent. -/
theorem C5_stable_message_id_reads_clock :
    stableMessageId envA noIdRequest ≠ stableMessageId envNextDay noIdRequest ∧
    stableTrackRefs envA noIdRequest = stableTrackRefs envNextDay noIdRequest := by
  constructor
  · decide
  · rfl

/-- C6 (counterexample).  Attributes are not re-sorted by key: the
writer emits them in `IndexMap` insertion order, so inserting `b`
before `a` yields `b` first, and the same attribute set inserted in the
opposite order serializes to different bytes. -/
theorem C6_counterexample_attr_order :
    XmlWriter.write DeterminismConfig.default astBA =
      "<?xml version=\"1.0\" encoding=\"UTF-8\"?>\n<X b=\"1\" a=\"2\"/>\n" ∧
    XmlWriter.write DeterminismConfig.default astBA ≠
      XmlWriter.write DeterminismConfig.default astAB := by
  constructor
  · rfl
  · decide

/-- C6 (amended).  What the writer actually guarantees: an element's
attributes are emitted exactly in the insertion order of its attribute
map — for pairwise-distinct keys, building with `with_attr` stores the
insertion sequence verbatim, and a childless element serializes to its
start tag with the attribute segments in exactly that stored order. -/
theorem C6_attrs_in_insertion_order (cfg : DeterminismConfig)
    (name : String) (l : List (String × String))
    (h : (l.map Prod.fst).Nodup) :
    (foldWithAttrs name l).attributes = l ∧
    XmlWriter.write_element cfg [] none 0 (Element.mk name none l []) =
      "<" ++ name ++ XmlWriter.renderAttrs l ++ "/>\n" := by
  constructor
  · have := foldWithAttrs_go l name [] [] none h (by simp)
    unfold foldWithAttrs Element.new
    rw [this]
    rfl
  · show XmlWriter.get_indent cfg 0 ++ "<" ++ _ ++ name ++ _ ++
      XmlWriter.renderAttrs l ++ "/>\n" = _
    rw [get_indent_zero]
    show "" ++ "<" ++ XmlWriter.startPfx (Element.mk name none l []) [] 0 ++
      name ++ XmlWriter.rootDecls [] none 0 ++ XmlWriter.renderAttrs l ++
      "/>\n" = _
    have h1 : XmlWriter.startPfx (Element.mk name none l []) [] 0 = "" := rfl
    have h2 : XmlWriter.rootDecls [] none 0 = "" := rfl
    rw [h1, h2]
    simp only [str_append_empty, str_empty_append]
/-- C6 witness: the amended statement instantiated at the concrete
two-attribute element. -/
theorem C6_attrs_in_insertion_order_witness :
    ((([("b", "1"), ("a", "2")] : List (String × String)).map
      Prod.fst).Nodup) ∧
    ((foldWithAttrs "X" [("b", "1"), ("a", "2")]).attributes =
        [("b", "1"), ("a", "2")] ∧
      XmlWriter.write_element DeterminismConfig.default [] none 0
        (Element.mk "X" none [("b", "1"), ("a", "2")] []) =
        "<" ++ "X" ++ XmlWriter.renderAttrs [("b", "1"), ("a", "2")] ++
          "/>\n") :=
  ⟨by decide,
   C6_attrs_in_insertion_order DeterminismConfig.default "X"
     [("b", "1"), ("a", "2")] (by decide)⟩

/-- C7.  Scenario S5: with the undefined resource reference `A7`,
Strict preflight fails the build with `ValidationFailed` carrying an
`UnresolvedReference` entry (as claimed); but at Warn level under the
default (canonical) options the build does not succeed with a warning —
it panics in the unimplemented `DB_C14N::parse_xml` (`todo!`).  With
the canonicalization stage switched off, the Warn-level build succeeds
and carries exactly the claimed warning, confirming the preflight logic
itself. -/
theorem C7_preflight_strict_vs_warn :
    DDEXBuilder.build envA s5Request strictOptions =
      .err (.ValidationFailed
        ["UnresolvedReference: Unresolved reference: A7"]) ∧
    DDEXBuilder.build envA s5Request BuildOptions.default = .panicked ∧
    (DDEXBuilder.build envA s5Request prettyOptions).warnings? =
      some [{ code := "UnresolvedReference"
              message := "Unresolved reference: A7"
              location := some "/releases" }] := by
  refine ⟨rfl, rfl, ?_⟩
  rfl

/-- C8 (counterexample).  After `apply_preset(_, lock = true)` the
builder reports itself locked, yet the very next `apply_preset` call
still returns `Ok` — `apply_preset` never consults `locked_preset`, so
the claimed refusal does not happen. -/
theorem C8_counterexample_lock_ignored :
    lockedBuilder.is_preset_locked = true ∧
    (lockedBuilder.apply_preset "apple_music_43" false).1 = .ok () := by
  constructor
  · rfl
  · rfl

/-- C8 (amended).  What holds instead: locking only records the preset
name (queryable via `is_preset_locked`); a subsequent `apply_preset`
with a known name behaves exactly as on an unlocked builder — it
returns `Ok`, overwrites the configuration with the preset's
determinism config, and re-points the lock only when the new call
itself locks. -/
theorem C8_lock_recorded_not_enforced (b : Builder) (nm : String)
    (lock : Bool) (p : PartnerPreset)
    (_hlocked : b.locked_preset.isSome = true)
    (hfound : lookupPreset nm b.presets = some p) :
    b.apply_preset nm lock =
      (.ok (), { b with
        config := p.determinism
        locked_preset := if lock then some nm else b.locked_preset }) := by
  unfold Builder.apply_preset
  rw [hfound]

/-- C8 witness: the amended statement instantiated on the locked
builder and the `apple_music_43` preset. -/
theorem C8_lock_recorded_not_enforced_witness :
    lockedBuilder.locked_preset.isSome = true ∧
    lookupPreset "apple_music_43" lockedBuilder.presets =
      some apple_music_43 ∧
    lockedBuilder.apply_preset "apple_music_43" false =
      (.ok (), { lockedBuilder with
        config := apple_music_43.determinism
        locked_preset := if false then some "apple_music_43"
          else lockedBuilder.locked_preset }) :=
  ⟨rfl, by decide,
   C8_lock_recorded_not_enforced lockedBuilder "apple_music_43" false
     apple_music_43 rfl (by decide)⟩

/-- C9.  Every string the writer produces begins with exactly the fixed
XML declaration followed by a single line feed, and the element body
follows; `DB_C14N::canonicalize` never returns `Ok` at all (it panics
in `parse_xml`), so the successful-serialization claim holds for it
vacuously. -/
theorem C9_output_starts_with_declaration :
    (∀ (cfg : DeterminismConfig) (ast : AST), ∃ rest,
      XmlWriter.write cfg ast = XML_DECLARATION ++ "\n" ++ rest) ∧
    (∀ cfg B, DB_C14N.canonicalize cfg B = .panicked) :=
  ⟨fun cfg ast =>
    ⟨XmlWriter.write_element cfg ast.namespaces ast.schema_location 0
      ast.root, rfl⟩,
   fun _ _ => rfl⟩

/-- C10.  `apply_preset` with an unknown preset name: the lookup fails
before any mutation, so the call returns exactly the `InvalidFormat`
error and leaves the builder untouched. -/
theorem C10_unknown_preset_atomic (b : Builder) (nm : String)
    (lock : Bool) (h : lookupPreset nm b.presets = none) :
    b.apply_preset nm lock =
      (.error (.InvalidFormat "preset" ("Unknown preset: " ++ nm)), b) := by
  unfold Builder.apply_preset
  rw [h]

/-- C10 witness: a fresh builder and a name outside the preset table. -/
theorem C10_unknown_preset_atomic_witness :
    lookupPreset "unknown_preset" Builder.new.presets = none ∧
    Builder.new.apply_preset "unknown_preset" true =
      (.error (.InvalidFormat "preset" "Unknown preset: unknown_preset"),
       Builder.new) :=
  ⟨by decide,
   C10_unknown_preset_atomic Builder.new "unknown_preset" true (by decide)⟩

end Ddex
